import Mathlib

/-!
# Verification of the AI news video autopilot pipeline

Shallow embedding of `src/youtube_autopilot_ai/autopilot.py` (the generation
pipeline: topic intake, script composition, speech synthesis, image
acquisition, audio/image muxing) and proofs about it.

External effects are modelled explicitly:
* the topic feed is a function from request URL to a `FetchResult`
  (network error, HTTP error status, JSON parse failure, or a parsed body);
* the image service is a function from request URL to a `FetchImage`;
* the media encoder is a function from invocation index to an
  `EncoderOutcome` (executable absent, or a run with exit code and captured
  standard-error text);
* the text-to-speech service either succeeds or raises;
* the wall-clock timestamp and the working directory are fields of a `World`.

Python exceptions are modelled with `Except PyError`; a function that catches
every exception is modelled as a total Lean function. Local, in-process
operations (string building, constructing the solid-colour placeholder image
in memory) are modelled as infallible.
-/

namespace Autopilot

/-- A topic dictionary, as built by `get_trending_topics` or by the override
path of `run_autopilot`. Python dictionaries may lack a key, so both fields
are optional; `generate_script` reads the title with
`topic.get("title", "")`, modelled by `Option.getD`. -/
structure Topic where
  title : Option String
  url : Option String
deriving Repr, DecidableEq

/-- The `data` dictionary of one feed entry, holding the fields
`get_trending_topics` reads (`title`, `permalink`); either may be absent. -/
structure FeedPost where
  title : Option String
  permalink : Option String
deriving Repr, DecidableEq

/-- Outcome of the HTTP fetch and JSON parse of the topic feed.
`success children` carries the list
`data.get("data", {}).get("children", [])`, each element already projected to
its `data` dictionary (those `.get` calls with defaults never raise). The
other three constructors are the exceptions `requests.get`,
`raise_for_status` and `response.json()` can raise. -/
inductive FetchResult where
  | networkError : FetchResult
  | httpError (status : Nat) : FetchResult
  | parseError : FetchResult
  | success (children : List FeedPost) : FetchResult
deriving Repr, DecidableEq

/-- The feed request URL built by `get_trending_topics`. -/
def feedUrl (num_topics : Nat) : String :=
  "https://www.reddit.com/r/artificial/top/.json?limit=" ++ toString num_topics ++ "&t=day"

/-- Python truthiness of an optional string: `None` and `""` are falsy.
Models the test `if not title or not permalink` in `get_trending_topics`. -/
def truthy : Option String → Bool
  | none => false
  | some s => s ≠ ""

/-- The body of the `for post in ...` loop of `get_trending_topics`: skip an
entry whose title or permalink is absent or empty (`continue`), otherwise
append a topic whose url is `"https://reddit.com"` followed by the permalink,
preserving feed order. -/
def collectTopics : List FeedPost → List Topic
  | [] => []
  | post :: rest =>
    match post.title, post.permalink with
    | some t, some p =>
        if t = "" || p = "" then collectTopics rest
        else { title := some t, url := some ("https://reddit.com" ++ p) } :: collectTopics rest
    | _, _ => collectTopics rest

/-- What `get_trending_topics` makes of a fetch outcome: the `except` clause
turns any raised exception into `[]`; a parsed body goes through the
collection loop. -/
def topics_of_response : FetchResult → List Topic
  | FetchResult.success children => collectTopics children
  | _ => []

/-- `get_trending_topics(num_topics)`: build the request URL, perform the
fetch against the feed (modelled as a function from URL to outcome), and
collect the topics, with every exception converted to an empty list. -/
def get_trending_topics (num_topics : Nat) (feed : String → FetchResult) : List Topic :=
  topics_of_response (feed (feedUrl num_topics))

/-- The fixed greeting line of `generate_script`. -/
def greetingLine : String := "Hello and welcome to today's AI news update."

/-- The fixed apology/fallback line of `generate_script` for an empty topic
list. -/
def fallbackLine : String :=
  "Unfortunately, I could not retrieve the latest stories. Please check back later."

/-- The fixed closing call-to-action line of `generate_script`. -/
def closingLine : String :=
  "Thank you for watching. Don't forget to like and subscribe for more AI news!"

/-- One story line: `f"Story {idx}: {title}."`. -/
def storyLine (idx : Nat) (title : String) : String :=
  "Story " ++ toString idx ++ ": " ++ title ++ "."

/-- The `for idx, topic in enumerate(topics, start=1)` loop of
`generate_script`, with the running index made explicit. -/
def story_lines (idx : Nat) : List Topic → List String
  | [] => []
  | t :: rest => storyLine idx (t.title.getD "") :: story_lines (idx + 1) rest

/-- The `lines` list `generate_script` builds before joining: greeting first,
then either the fallback line (empty input) or one story line per topic, then
the closing line. -/
def script_lines (topics : List Topic) : List String :=
  let lines : List String := [greetingLine]
  let lines := if topics.isEmpty then lines ++ [fallbackLine] else lines ++ story_lines 1 topics
  lines ++ [closingLine]

/-- `generate_script`: the lines joined with the separator `" \n"`
(a space followed by a newline), exactly as in the source
(`return " \n".join(lines)`). -/
def generate_script (topics : List Topic) : String :=
  String.intercalate " \n" (script_lines topics)

/-- Outcome of the HTTP fetch of the image service in `download_image`:
either a 2xx response whose body is the raw image bytes, or one of the
exceptions `requests.get` / `raise_for_status` can raise. -/
inductive FetchImage where
  | ok (bytes : List Nat) : FetchImage
  | networkError : FetchImage
  | httpError (status : Nat) : FetchImage
deriving Repr, DecidableEq

/-- The file `download_image` leaves at the destination path: either the
fetched response body written verbatim, or the locally generated solid-colour
placeholder `Image.new("RGB", (width, height), color=(0, 0, 0))`. -/
inductive ImageFile where
  | bytes (content : List Nat) : ImageFile
  | placeholder (width height : Nat) (color : Nat × Nat × Nat) : ImageFile
deriving Repr, DecidableEq

/-- The image-service request URL built by `download_image`. -/
def imageUrl (query : String) (width height : Nat) : String :=
  "https://source.unsplash.com/random/" ++ toString width ++ "x" ++ toString height
    ++ "/?" ++ query

/-- `download_image(query, width, height, image_filename)`: fetch from the
image service (a function from URL to outcome); `writeOk` says whether
opening and writing the destination file succeeds. Any exception in the
`try` block (network, HTTP status, write) is caught and the black
width-by-height placeholder is generated locally instead; the local
generation itself is modelled as infallible, so the function is total: it
never raises to its caller. -/
def download_image (query : String) (width height : Nat) (image_filename : String)
    (service : String → FetchImage) (writeOk : Bool) : ImageFile :=
  match service (imageUrl query width height) with
  | FetchImage.ok content =>
      if writeOk then ImageFile.bytes content
      else ImageFile.placeholder width height (0, 0, 0)
  | _ => ImageFile.placeholder width height (0, 0, 0)

/-- Python exceptions the pipeline can raise to its caller. `runtimeError`
is `RuntimeError(msg)`; `ttsError` stands for whatever exception `gTTS`
raises on a synthesis failure (propagated unmodified, never inspected). -/
inductive PyError where
  | runtimeError (msg : String) : PyError
  | ttsError : PyError
deriving Repr, DecidableEq

/-- Outcome of one invocation of the `ffmpeg` executable by
`subprocess.run`: `notFound` is `FileNotFoundError` (executable absent from
the system path); `exited code stderr` is a completed run with its exit code
and its captured standard-error text (already decoded, as by
`.decode("utf-8", errors="ignore")`). -/
inductive EncoderOutcome where
  | notFound : EncoderOutcome
  | exited (code : Nat) (stderr : String) : EncoderOutcome
deriving Repr, DecidableEq

/-- The fixed `ffmpeg` argument list built by `combine_audio_image`. -/
def ffmpeg_command (image_filename audio_filename output_filename : String) : List String :=
  ["ffmpeg", "-y", "-loop", "1", "-i", image_filename, "-i", audio_filename,
   "-c:v", "libx264", "-tune", "stillimage", "-c:a", "aac", "-b:a", "192k",
   "-pix_fmt", "yuv420p", "-shortest", output_filename]

/-- The message of the `RuntimeError` raised when the encoder executable is
absent. -/
def ffmpegNotFoundMsg : String :=
  "ffmpeg executable not found. Please install ffmpeg and ensure it is in your PATH."

/-- The message of the `RuntimeError` raised when the encoder exits with a
non-zero status, carrying the captured standard-error text. -/
def ffmpegFailedMsg (stderr : String) : String :=
  "ffmpeg failed: " ++ stderr

/-- `combine_audio_image`: run the encoder once (`enc i` is the outcome the
i-th invocation would have; only invocation 0 ever happens — nothing is
retried). `FileNotFoundError` becomes the missing-dependency `RuntimeError`;
a non-zero exit (`check=True` raising `CalledProcessError`) becomes the
`RuntimeError` carrying the encoder's standard-error text; exit code 0
returns normally. -/
def combine_audio_image (image_filename audio_filename output_filename : String)
    (enc : Nat → EncoderOutcome) : Except PyError Unit :=
  match enc 0 with
  | EncoderOutcome.notFound => Except.error (PyError.runtimeError ffmpegNotFoundMsg)
  | EncoderOutcome.exited code stderr =>
      if code = 0 then Except.ok ()
      else Except.error (PyError.runtimeError (ffmpegFailedMsg stderr))

/-- Observable external actions of one pipeline run, in order. -/
inductive Event where
  | fetchTopics : Event
  | synthesizeSpeech (text path : String) : Event
  | acquireImage (query : String) (width height : Nat) (path : String)
      (result : ImageFile) : Event
  | mux (image_path audio_path output_path : String) : Event
deriving Repr, DecidableEq

/-- The external world one `run_autopilot` invocation interacts with. -/
structure World where
  feed : String → FetchResult
  imageService : String → FetchImage
  imageWriteOk : Bool
  ttsFails : Bool
  enc : Nat → EncoderOutcome
  timestamp : String
  cwd : String

/-- Audio artifact filename: `f"voice_{timestamp}.mp3"`. -/
def audio_filename (timestamp : String) : String := "voice_" ++ timestamp ++ ".mp3"

/-- Image artifact filename: `f"background_{timestamp}.jpg"`. -/
def image_filename (timestamp : String) : String := "background_" ++ timestamp ++ ".jpg"

/-- Video artifact filename: `f"output_{timestamp}.mp4"`. -/
def video_filename (timestamp : String) : String := "output_" ++ timestamp ++ ".mp4"

/-- `os.path.abspath` on the relative artifact filenames produced here:
the working directory followed by the filename. -/
def abspath (cwd filename : String) : String := cwd ++ "/" ++ filename

/-- The topic-resolution step of `run_autopilot`
(`if topics_override and len(topics_override) > 0`): a non-empty override
list is wrapped element-wise into topics with empty url, in order, with no
feed fetch; otherwise the feed is queried with `num_topics=5`. The second
component records whether the feed was fetched. -/
def resolve_step (topics_override : Option (List String)) (feed : String → FetchResult) :
    List Topic × List Event :=
  match topics_override with
  | some l =>
      if 0 < l.length then
        (l.map (fun t => { title := some t, url := some "" }), ([] : List Event))
      else (get_trending_topics 5 feed, [Event.fetchTopics])
  | none => (get_trending_topics 5 feed, [Event.fetchTopics])

/-- `run_autopilot(topics_override)`: resolve topics, compose the script,
take one timestamp, derive the three artifact filenames from it, then
synthesize speech, acquire the image (which never raises), and mux, in that
order. The result pairs what the Python function does (returns the absolute
video path, or raises) with the trace of external actions performed. -/
def run_autopilot (w : World) (topics_override : Option (List String)) :
    Except PyError String × List Event :=
  let topics := (resolve_step topics_override w.feed).1
  let pre := (resolve_step topics_override w.feed).2
  let script_text := generate_script topics
  let audio := audio_filename w.timestamp
  let image := image_filename w.timestamp
  let video := video_filename w.timestamp
  if w.ttsFails then
    (Except.error PyError.ttsError, pre ++ [Event.synthesizeSpeech script_text audio])
  else
    let imgResult := download_image "ai,technology" 1280 720 image w.imageService w.imageWriteOk
    let trace := pre ++
      [Event.synthesizeSpeech script_text audio,
       Event.acquireImage "ai,technology" 1280 720 image imgResult,
       Event.mux image audio video]
    match combine_audio_image image audio video w.enc with
    | Except.error e => (Except.error e, trace)
    | Except.ok _ => (Except.ok (abspath w.cwd video), trace)

/-! ## Claim-side definitions

The following definitions are written from the spec's words (not from the
source) and are compared with the source-side definitions above in the
refinement theorems below. -/

/-- Written from the spec: one line per topic, 1-indexed in input order, of
the form "Story {index}: {title}.". -/
def claim_story_lines (topics : List Topic) : List String :=
  topics.enum.map (fun p => "Story " ++ toString (p.1 + 1) ++ ": " ++ p.2.title.getD "" ++ ".")

/-- Written from the spec: the fixed greeting line first; then, for an empty
topic list, the fixed apology/fallback line, otherwise the per-topic story
lines; the fixed closing call-to-action line last. -/
def claim_lines (topics : List Topic) : List String :=
  [greetingLine] ++
    (if topics = [] then [fallbackLine] else claim_story_lines topics) ++ [closingLine]

/-- The host of the feed request URL `feedUrl` (the claim's "feed host"). -/
def feed_host : String := "www.reddit.com"

/-- Written from the spec: keep an entry that has a title and a permalink
(Python-falsy absent-or-empty counts as missing) and give it the entry's
post-relative link prefixed with the feed host. -/
def claim_keep (post : FeedPost) : Option Topic :=
  match post.title, post.permalink with
  | some t, some p =>
      if t = "" || p = "" then none
      else some { title := some t, url := some ("https://" ++ feed_host ++ p) }
  | _, _ => none

/-- Written from the amended claim: as `claim_keep`, but the prefix is the
fixed string "https://reddit.com" — the registrable domain without the
"www." subdomain the feed request itself uses. -/
def amended_keep (post : FeedPost) : Option Topic :=
  match post.title, post.permalink with
  | some t, some p =>
      if t = "" || p = "" then none
      else some { title := some t, url := some ("https://reddit.com" ++ p) }
  | _, _ => none

/-- An entry the collection loop keeps: title and permalink both present and
non-empty (the negation of `if not title or not permalink: continue`). -/
def validEntry (post : FeedPost) : Bool :=
  match post.title, post.permalink with
  | some t, some p => !(t = "" || p = "")
  | _, _ => false

/-! ## Concrete sample inputs used by witnesses and counterexamples -/

/-- One well-formed feed entry. -/
def sample_children : List FeedPost :=
  [{ title := some "New model released", permalink := some "/r/artificial/comments/abc" }]

/-- A feed answering every URL with `sample_children`. -/
def sample_feed : String → FetchResult := fun _ => FetchResult.success sample_children

/-- A feed body with three valid entries and one entry lacking a permalink:
more valid entries than the `num_topics` bound 2 used with it below. -/
def capped_children : List FeedPost :=
  [{ title := some "A", permalink := some "/r/artificial/a" },
   { title := some "B", permalink := some "/r/artificial/b" },
   { title := some "C", permalink := some "/r/artificial/c" },
   { title := some "D", permalink := none }]

/-- A feed answering every URL with `capped_children`. -/
def capped_feed : String → FetchResult := fun _ => FetchResult.success capped_children

/-- A world on the fully simulated success path: the feed and the image
service are unreachable, speech synthesis succeeds, the encoder exits 0. -/
def demo_world : World where
  feed := fun _ => FetchResult.networkError
  imageService := fun _ => FetchImage.networkError
  imageWriteOk := true
  ttsFails := false
  enc := fun _ => EncoderOutcome.exited 0 ""
  timestamp := "20250101_000000"
  cwd := "/tmp"

/-! ## Helper lemmas -/

/-- The story loop yields one line per topic. -/
theorem story_lines_length (k : Nat) (ts : List Topic) :
    (story_lines k ts).length = ts.length := by
  induction ts generalizing k with
  | nil => rfl
  | cons t rest ih => simp [story_lines, ih]

/-- The story loop, with running index, agrees with enumeration from the
matching offset. -/
theorem story_lines_enumFrom (k : Nat) (ts : List Topic) :
    story_lines (k + 1) ts =
      (List.enumFrom k ts).map (fun p => storyLine (p.1 + 1) (p.2.title.getD "")) := by
  induction ts generalizing k with
  | nil => rfl
  | cons t rest ih =>
    simp only [story_lines, List.enumFrom_cons, List.map_cons]
    exact congrArg _ (ih (k + 1))

/-- The lines list built by `generate_script` is exactly the lines list the
spec describes. -/
theorem script_lines_eq_claim_lines (topics : List Topic) :
    script_lines topics = claim_lines topics := by
  unfold script_lines claim_lines
  cases topics with
  | nil => rfl
  | cons t rest =>
    have h1 : claim_story_lines (t :: rest) =
        List.map (fun p => storyLine (p.1 + 1) (p.2.title.getD ""))
          (List.enumFrom 0 (t :: rest)) := rfl
    have h2 := story_lines_enumFrom 0 (t :: rest)
    rw [Nat.zero_add] at h2
    simp only [List.isEmpty_cons, Bool.false_eq_true, ite_false,
      if_neg (List.cons_ne_nil t rest), h1, ← h2]

/-- Element `i` of the story loop's output. -/
theorem story_lines_get (k : Nat) (ts : List Topic) (i : Nat) (hi : i < ts.length) :
    (story_lines k ts).get? i = some (storyLine (k + i) ((ts.get ⟨i, hi⟩).title.getD "")) := by
  induction ts generalizing k i with
  | nil => simp at hi
  | cons t rest ih =>
    cases i with
    | zero => rfl
    | succ n =>
      have hn : n < rest.length := Nat.lt_of_succ_lt_succ hi
      show (story_lines (k + 1) rest).get? n = _
      rw [ih (k + 1) n hn]
      have : k + 1 + n = k + (n + 1) := by omega
      rw [this]
      rfl

/-- For a non-empty topic list, line `i + 1` of the script's lines list is
the story line for topic `i` (0-indexed input, 1-indexed story number). -/
theorem script_lines_get_story (topics : List Topic) (i : Nat) (hi : i < topics.length) :
    (script_lines topics).get? (i + 1) =
      some (storyLine (i + 1) ((topics.get ⟨i, hi⟩).title.getD "")) := by
  have hne : topics.isEmpty = false := by
    cases topics with
    | nil => simp at hi
    | cons t rest => rfl
  unfold script_lines
  simp only [hne, Bool.false_eq_true, if_false]
  show (greetingLine :: (story_lines 1 topics ++ [closingLine])).get? (i + 1) = _
  rw [List.get?_cons_succ]
  rw [List.get?_append (by rw [story_lines_length]; exact hi)]
  rw [story_lines_get 1 topics i hi]
  have : 1 + i = i + 1 := by omega
  rw [this]

/-- A story line with an empty title. -/
theorem storyLine_empty_title (k : Nat) :
    storyLine k "" = "Story " ++ toString k ++ ": ." := by
  unfold storyLine
  rw [String.append_empty, String.append_assoc]
  rw [(by decide : (": " : String) ++ "." = ": .")]

/-! ## Claims -/

set_option maxRecDepth 10000 in
/-- C2, counterexample: the claim says the lines are newline-joined, but
`generate_script` joins them with the two-character separator consisting of
a space followed by a newline; already on the empty topic list the two
differ. -/
theorem c2_counterexample :
    generate_script [] ≠ String.intercalate "\n" (claim_lines []) := by
  decide

/-- C2, amended: for every topic list, `generate_script` produces the fixed
greeting line first and the fixed closing call-to-action line last; if the
list is empty the single middle line is the fixed apology/fallback line and
no story line occurs; if the list is non-empty there is exactly one line per
topic, 1-indexed in input order, of the form "Story {index}: {title}."; and
the lines are joined with the separator consisting of a space followed by a
newline. -/
theorem c2_script_structure (topics : List Topic) :
    generate_script topics = String.intercalate " \n" (claim_lines topics) := by
  unfold generate_script
  rw [script_lines_eq_claim_lines]

/-- C8: `generate_script` is deterministic and side-effect free — it is a
pure function of the topic list alone (it takes no `World`), so two runs on
equal inputs return byte-identical strings. -/
theorem c8_deterministic (t1 t2 : List Topic) (h : t1 = t2) :
    generate_script t1 = generate_script t2 ∧
      (generate_script t1).data = (generate_script t2).data := by
  subst h
  exact ⟨rfl, rfl⟩

/-- C8, witness at a concrete topic list. -/
theorem c8_witness :
    ([{ title := some "A", url := some "" }] : List Topic) =
        [{ title := some "A", url := some "" }] ∧
      (generate_script [{ title := some "A", url := some "" }] =
          generate_script [{ title := some "A", url := some "" }] ∧
        (generate_script [{ title := some "A", url := some "" }]).data =
          (generate_script [{ title := some "A", url := some "" }]).data) :=
  ⟨rfl, c8_deterministic _ _ rfl⟩

/-- C5: whenever the feed request raises — network error, non-success HTTP
status, or a parse failure of the body — `get_trending_topics` catches the
exception and returns the empty list (it is total, so it never raises to its
caller, and the pipeline proceeds with no stories). -/
theorem c5_failure_empty (n s : Nat) (feed : String → FetchResult)
    (h : feed (feedUrl n) = FetchResult.networkError ∨
        feed (feedUrl n) = FetchResult.httpError s ∨
        feed (feedUrl n) = FetchResult.parseError) :
    get_trending_topics n feed = [] := by
  unfold get_trending_topics
  rcases h with h | h | h <;> rw [h] <;> rfl

/-- C5, witness: an unreachable feed at `num_topics = 5`. -/
theorem c5_witness :
    ((fun _ : String => FetchResult.networkError) (feedUrl 5) = FetchResult.networkError ∨
        (fun _ : String => FetchResult.networkError) (feedUrl 5) = FetchResult.httpError 404 ∨
        (fun _ : String => FetchResult.networkError) (feedUrl 5) = FetchResult.parseError) ∧
      get_trending_topics 5 (fun _ => FetchResult.networkError) = [] :=
  ⟨Or.inl rfl, c5_failure_empty 5 404 _ (Or.inl rfl)⟩

/-- C3: on any failure of the image fetch (network error, HTTP error) or of
writing the fetched bytes, `download_image` produces the locally generated
solid-colour (black) placeholder of exactly the requested width and height;
the function is total, so it never raises to its caller. -/
theorem c3_fallback (query : String) (width height : Nat) (path : String)
    (service : String → FetchImage) (writeOk : Bool)
    (h : (∀ b, service (imageUrl query width height) ≠ FetchImage.ok b) ∨ writeOk = false) :
    download_image query width height path service writeOk =
      ImageFile.placeholder width height (0, 0, 0) := by
  unfold download_image
  cases hs : service (imageUrl query width height) with
  | ok b =>
    rcases h with h | h
    · exact absurd hs (h b)
    · rw [h]
      simp
  | networkError => rfl
  | httpError s => rfl

/-- C3, witness: the image service simulated unreachable at the pipeline's
actual query and dimensions. -/
theorem c3_witness :
    ((∀ b, (fun _ : String => FetchImage.networkError) (imageUrl "ai,technology" 1280 720) ≠
          FetchImage.ok b) ∨ (true : Bool) = false) ∧
      download_image "ai,technology" 1280 720 "background_x.jpg"
          (fun _ => FetchImage.networkError) true =
        ImageFile.placeholder 1280 720 (0, 0, 0) :=
  ⟨Or.inl (fun b h => nomatch h),
   c3_fallback "ai,technology" 1280 720 "background_x.jpg" (fun _ => FetchImage.networkError)
     true (Or.inl (fun b h => nomatch h))⟩

set_option maxRecDepth 2000 in
/-- The two muxer error messages differ for every captured standard-error
text: they disagree already within their first eight characters. -/
theorem ffmpeg_messages_distinct (stderr : String) :
    ffmpegNotFoundMsg ≠ ffmpegFailedMsg stderr := by
  intro h
  have h8 : ffmpegNotFoundMsg.data.take 8 = (ffmpegFailedMsg stderr).data.take 8 := by rw [h]
  unfold ffmpegFailedMsg at h8
  rw [String.data_append, List.take_append_of_le_length (by decide)] at h8
  exact absurd h8 (by decide)

set_option maxRecDepth 2000 in
/-- C4: `combine_audio_image` has exactly two failure modes and they are
distinct. An absent encoder executable raises the `RuntimeError` whose
message names the missing `ffmpeg` dependency; an encoder run that exits
with non-zero status raises the `RuntimeError` carrying the encoder's
captured standard-error text; the two messages differ for every diagnostic
text; every error the function can raise is one of these two; and the result
depends only on the first encoder invocation — nothing is retried. -/
theorem c4_mux_failure_modes (image audio output : String) (enc : Nat → EncoderOutcome)
    (code : Nat) (stderr : String) :
    (enc 0 = EncoderOutcome.notFound →
        combine_audio_image image audio output enc =
          Except.error (PyError.runtimeError ffmpegNotFoundMsg)) ∧
      (enc 0 = EncoderOutcome.exited code stderr → code ≠ 0 →
        combine_audio_image image audio output enc =
          Except.error (PyError.runtimeError (ffmpegFailedMsg stderr))) ∧
      ffmpegNotFoundMsg ≠ ffmpegFailedMsg stderr ∧
      ffmpegNotFoundMsg.data.take 6 = "ffmpeg".data ∧
      (∀ e, combine_audio_image image audio output enc = Except.error e →
        e = PyError.runtimeError ffmpegNotFoundMsg ∨
          ∃ s, e = PyError.runtimeError (ffmpegFailedMsg s)) ∧
      (∀ enc2 : Nat → EncoderOutcome, enc 0 = enc2 0 →
        combine_audio_image image audio output enc =
          combine_audio_image image audio output enc2) := by
  refine ⟨?_, ?_, ffmpeg_messages_distinct stderr, by decide, ?_, ?_⟩
  · intro h
    unfold combine_audio_image
    rw [h]
  · intro h hc
    unfold combine_audio_image
    rw [h]
    simp [hc]
  · intro e he
    unfold combine_audio_image at he
    cases h0 : enc 0 with
    | notFound =>
      rw [h0] at he
      exact Or.inl (Except.error.inj he).symm
    | exited c s =>
      rw [h0] at he
      by_cases hc : c = 0
      · simp [hc] at he
      · simp only [hc, if_neg, Bool.false_eq_true, ite_false] at he
        exact Or.inr ⟨s, (Except.error.inj he).symm⟩
  · intro enc2 h
    unfold combine_audio_image
    rw [h]

/-- C4, witness: the encoder executable simulated absent. -/
theorem c4_witness :
    ((fun _ : Nat => EncoderOutcome.notFound) 0 = EncoderOutcome.notFound) ∧
      combine_audio_image "background_x.jpg" "voice_x.mp3" "output_x.mp4"
          (fun _ => EncoderOutcome.notFound) =
        Except.error (PyError.runtimeError ffmpegNotFoundMsg) :=
  ⟨rfl,
   (c4_mux_failure_modes "background_x.jpg" "voice_x.mp3" "output_x.mp4"
       (fun _ => EncoderOutcome.notFound) 1 "diag").1 rfl⟩

/-- The collection loop of `get_trending_topics` is the filterMap of the
amended per-entry rule. -/
theorem collectTopics_eq_filterMap (l : List FeedPost) :
    collectTopics l = l.filterMap amended_keep := by
  induction l with
  | nil => rfl
  | cons post rest ih =>
    cases hpt : post.title with
    | none =>
      simp only [collectTopics, hpt, List.filterMap_cons, amended_keep]
      cases post.permalink <;> exact ih
    | some t =>
      cases hpl : post.permalink with
      | none =>
        simp only [collectTopics, hpt, hpl, List.filterMap_cons, amended_keep]
        exact ih
      | some p =>
        simp only [collectTopics, hpt, hpl, List.filterMap_cons, amended_keep]
        by_cases hskip : (t = "" || p = "") = true
        · simp only [hskip, ite_true]
          exact ih
        · simp only [Bool.not_eq_true] at hskip
          simp only [hskip, Bool.false_eq_true, ite_false]
          exact congrArg _ ih

set_option maxRecDepth 4000 in
/-- C7, counterexample: the claim prefixes kept permalinks with the feed
host, which is `www.reddit.com` (the second conjunct pins that down from
`feedUrl` itself), but on a concrete well-formed entry the code produces
`https://reddit.com/...` — without the `www.` subdomain — so the result is
not the claim-side filterMap. -/
theorem c7_counterexample :
    get_trending_topics 5 sample_feed ≠ sample_children.filterMap claim_keep ∧
      (feedUrl 5).data.take 22 = ("https://" ++ feed_host).data := by
  exact ⟨by decide, by decide⟩

/-- C7, amended: for every successfully fetched and parsed feed response,
`get_trending_topics` skips each entry missing a title or a permalink
(absent-or-empty, without failing the whole fetch) and, for each kept entry,
returns a topic whose url is the entry's post-relative link prefixed with
the fixed origin `https://reddit.com` (the feed's domain without the `www.`
subdomain the request itself uses), in feed order. -/
theorem c7_kept_entries (n : Nat) (feed : String → FetchResult) (children : List FeedPost)
    (h : feed (feedUrl n) = FetchResult.success children) :
    get_trending_topics n feed = children.filterMap amended_keep := by
  unfold get_trending_topics
  rw [h]
  exact collectTopics_eq_filterMap children

/-- C7, witness: a concrete one-entry feed body. -/
theorem c7_witness :
    sample_feed (feedUrl 5) = FetchResult.success sample_children ∧
      get_trending_topics 5 sample_feed = sample_children.filterMap amended_keep :=
  ⟨rfl, c7_kept_entries 5 sample_feed sample_children rfl⟩

/-- The collection loop keeps exactly the valid entries, so its output
length is the number of valid entries. -/
theorem collectTopics_length (l : List FeedPost) :
    (collectTopics l).length = (l.filter validEntry).length := by
  induction l with
  | nil => rfl
  | cons post rest ih =>
    cases hpt : post.title with
    | none =>
      have hv : validEntry post = false := by unfold validEntry; rw [hpt]
      simp only [collectTopics, hpt, List.filter_cons, hv, Bool.false_eq_true, ite_false]
      cases post.permalink <;> exact ih
    | some t =>
      cases hpl : post.permalink with
      | none =>
        have hv : validEntry post = false := by unfold validEntry; rw [hpt, hpl]
        simp only [collectTopics, hpt, hpl, List.filter_cons, hv, Bool.false_eq_true, ite_false]
        exact ih
      | some p =>
        have hv : validEntry post = !(t = "" || p = "") := by unfold validEntry; rw [hpt, hpl]
        by_cases hskip : (t = "" || p = "") = true
        · simp only [collectTopics, hpt, hpl, hskip, ite_true, List.filter_cons, hv,
            Bool.not_eq_true', hskip, Bool.false_eq_true, ite_false]
          exact ih
        · simp only [Bool.not_eq_true] at hskip
          simp only [collectTopics, hpt, hpl, hskip, Bool.false_eq_true, ite_false,
            List.filter_cons, hv, Bool.not_false, ite_true, List.length_cons]
          exact congrArg Nat.succ ih

/-- C10: `get_trending_topics` applies no local cap — for every parsed feed
response it returns one topic per valid entry (one that has both a title and
a permalink), so a response with more than `num_topics` valid entries yields
more than `num_topics` topics; the bound enters only the request URL. -/
theorem c10_no_local_cap (n : Nat) (feed : String → FetchResult) (children : List FeedPost)
    (h : feed (feedUrl n) = FetchResult.success children) :
    (get_trending_topics n feed).length = (children.filter validEntry).length ∧
      (n < (children.filter validEntry).length → n < (get_trending_topics n feed).length) := by
  have hlen : (get_trending_topics n feed).length = (children.filter validEntry).length := by
    unfold get_trending_topics
    rw [h]
    exact collectTopics_length children
  exact ⟨hlen, fun hlt => hlen ▸ hlt⟩

set_option maxRecDepth 4000 in
/-- C10, witness: a response with three valid entries (and one invalid one)
requested with `num_topics = 2` yields three topics. -/
theorem c10_witness :
    capped_feed (feedUrl 2) = FetchResult.success capped_children ∧
      2 < (capped_children.filter validEntry).length ∧
      2 < (get_trending_topics 2 capped_feed).length :=
  ⟨rfl, by decide, (c10_no_local_cap 2 capped_feed capped_children rfl).2 (by decide)⟩

/-- The topic-resolution step performs either no feed fetch or exactly
one. -/
theorem resolve_step_snd (ov : Option (List String)) (feed : String → FetchResult) :
    (resolve_step ov feed).2 = [] ∨ (resolve_step ov feed).2 = [Event.fetchTopics] := by
  cases ov with
  | none => exact Or.inr rfl
  | some l =>
    by_cases h : 0 < l.length
    · exact Or.inl (by simp [resolve_step, h])
    · exact Or.inr (by simp [resolve_step, h])

/-- A successful run implies speech synthesis did not fail. -/
theorem run_autopilot_ok_tts (w : World) (ov : Option (List String)) (p : String)
    (h : (run_autopilot w ov).1 = Except.ok p) : w.ttsFails = false := by
  by_cases ht : w.ttsFails = true
  · exfalso
    unfold run_autopilot at h
    simp [ht] at h
  · cases hb : w.ttsFails with
    | false => rfl
    | true => exact absurd hb ht

/-- A successful run returns the absolute path of the video artifact. -/
theorem run_autopilot_fst (w : World) (ov : Option (List String)) (p : String)
    (h : (run_autopilot w ov).1 = Except.ok p) :
    p = abspath w.cwd (video_filename w.timestamp) := by
  have hts := run_autopilot_ok_tts w ov p h
  unfold run_autopilot at h
  simp only [hts, Bool.false_eq_true, ite_false] at h
  cases hc : combine_audio_image (image_filename w.timestamp) (audio_filename w.timestamp)
      (video_filename w.timestamp) w.enc with
  | error e =>
    rw [hc] at h
    simp at h
  | ok u =>
    rw [hc] at h
    simpa using h.symm

/-- When speech synthesis succeeds, the run's trace is the optional feed
fetch, then speech synthesis, then image acquisition, then muxing. -/
theorem run_autopilot_trace (w : World) (ov : Option (List String))
    (hts : w.ttsFails = false) :
    (run_autopilot w ov).2 =
      (resolve_step ov w.feed).2 ++
        [Event.synthesizeSpeech (generate_script (resolve_step ov w.feed).1)
           (audio_filename w.timestamp),
         Event.acquireImage "ai,technology" 1280 720 (image_filename w.timestamp)
           (download_image "ai,technology" 1280 720 (image_filename w.timestamp)
              w.imageService w.imageWriteOk),
         Event.mux (image_filename w.timestamp) (audio_filename w.timestamp)
           (video_filename w.timestamp)] := by
  unfold run_autopilot
  simp only [hts, Bool.false_eq_true, ite_false]
  cases hc : combine_audio_image (image_filename w.timestamp) (audio_filename w.timestamp)
      (video_filename w.timestamp) w.enc with
  | error e => rfl
  | ok u => rfl

/-- C1: for every world and optional override list, a successful
`run_autopilot` returns the absolute path of the video artifact; all three
artifact filenames are derived from the one run identifier (the timestamp)
with the fixed extensions `.mp3`, `.jpg`, `.mp4`; and the trace is topic
resolution (at most one fetch), then speech synthesis of the composed
script, then image acquisition, then muxing, in that order. -/
theorem c1_run_contract (w : World) (ov : Option (List String)) (p : String)
    (h : (run_autopilot w ov).1 = Except.ok p) :
    p = abspath w.cwd (video_filename w.timestamp) ∧
      audio_filename w.timestamp = "voice_" ++ w.timestamp ++ ".mp3" ∧
      image_filename w.timestamp = "background_" ++ w.timestamp ++ ".jpg" ∧
      video_filename w.timestamp = "output_" ++ w.timestamp ++ ".mp4" ∧
      ((resolve_step ov w.feed).2 = [] ∨
        (resolve_step ov w.feed).2 = [Event.fetchTopics]) ∧
      (run_autopilot w ov).2 =
        (resolve_step ov w.feed).2 ++
          [Event.synthesizeSpeech (generate_script (resolve_step ov w.feed).1)
             (audio_filename w.timestamp),
           Event.acquireImage "ai,technology" 1280 720 (image_filename w.timestamp)
             (download_image "ai,technology" 1280 720 (image_filename w.timestamp)
                w.imageService w.imageWriteOk),
           Event.mux (image_filename w.timestamp) (audio_filename w.timestamp)
             (video_filename w.timestamp)] :=
  ⟨run_autopilot_fst w ov p h, rfl, rfl, rfl, resolve_step_snd ov w.feed,
   run_autopilot_trace w ov (run_autopilot_ok_tts w ov p h)⟩

/-- C1, witness: the fully simulated success path with override
`["OnlyTopic"]`. -/
theorem c1_witness :
    (run_autopilot demo_world (some ["OnlyTopic"])).1 =
        Except.ok "/tmp/output_20250101_000000.mp4" ∧
      ("/tmp/output_20250101_000000.mp4" =
          abspath demo_world.cwd (video_filename demo_world.timestamp) ∧
        audio_filename demo_world.timestamp = "voice_" ++ demo_world.timestamp ++ ".mp3" ∧
        image_filename demo_world.timestamp =
          "background_" ++ demo_world.timestamp ++ ".jpg" ∧
        video_filename demo_world.timestamp = "output_" ++ demo_world.timestamp ++ ".mp4" ∧
        ((resolve_step (some ["OnlyTopic"]) demo_world.feed).2 = [] ∨
          (resolve_step (some ["OnlyTopic"]) demo_world.feed).2 = [Event.fetchTopics]) ∧
        (run_autopilot demo_world (some ["OnlyTopic"])).2 =
          (resolve_step (some ["OnlyTopic"]) demo_world.feed).2 ++
            [Event.synthesizeSpeech
               (generate_script (resolve_step (some ["OnlyTopic"]) demo_world.feed).1)
               (audio_filename demo_world.timestamp),
             Event.acquireImage "ai,technology" 1280 720
               (image_filename demo_world.timestamp)
               (download_image "ai,technology" 1280 720
                  (image_filename demo_world.timestamp)
                  demo_world.imageService demo_world.imageWriteOk),
             Event.mux (image_filename demo_world.timestamp)
               (audio_filename demo_world.timestamp)
               (video_filename demo_world.timestamp)]) :=
  ⟨rfl, c1_run_contract demo_world (some ["OnlyTopic"]) "/tmp/output_20250101_000000.mp4" rfl⟩

/-- C6: a non-empty override list is wrapped element-wise into topics with
that string as title and empty url, in the given order, and the run makes no
call to the topic feed. -/
theorem c6_override (w : World) (l : List String) (hne : l ≠ []) :
    (resolve_step (some l) w.feed).1 =
        l.map (fun t => { title := some t, url := some "" }) ∧
      Event.fetchTopics ∉ (run_autopilot w (some l)).2 := by
  have hl : 0 < l.length := List.length_pos.mpr hne
  have hpre : (resolve_step (some l) w.feed).2 = [] := by simp [resolve_step, hl]
  refine ⟨by simp [resolve_step, hl], ?_⟩
  by_cases ht : w.ttsFails = true
  · unfold run_autopilot
    simp [ht, hpre]
  · have hts : w.ttsFails = false := by
      cases hb : w.ttsFails with
      | false => rfl
      | true => exact absurd hb ht
    rw [run_autopilot_trace w (some l) hts, hpre]
    simp

/-- C6, witness: override `["X", "Y"]` against the demo world. -/
theorem c6_witness :
    (["X", "Y"] : List String) ≠ [] ∧
      ((resolve_step (some ["X", "Y"]) demo_world.feed).1 =
          (["X", "Y"] : List String).map (fun t => { title := some t, url := some "" }) ∧
        Event.fetchTopics ∉ (run_autopilot demo_world (some ["X", "Y"])).2) :=
  ⟨by decide, c6_override demo_world ["X", "Y"] (by decide)⟩

/-- C9: the non-empty-title requirement of the Topic data model is not
enforced: an override list containing an empty string still composes (the
pipeline wraps it and `generate_script`, being total, does not raise),
emitting the story line "Story {index}: ." with an empty title for that
entry; likewise a topic dictionary lacking a title key yields the same
empty-titled story line via `topic.get("title", "")`. -/
theorem c9_empty_titles (feed : String → FetchResult) (l : List String) (i : Nat)
    (hi : i < l.length) (he : l.get ⟨i, hi⟩ = "")
    (topics : List Topic) (j : Nat) (hj : j < topics.length)
    (ht : (topics.get ⟨j, hj⟩).title = none) :
    (script_lines (resolve_step (some l) feed).1).get? (i + 1) =
        some ("Story " ++ toString (i + 1) ++ ": .") ∧
      (script_lines topics).get? (j + 1) =
        some ("Story " ++ toString (j + 1) ++ ": .") := by
  constructor
  · have hl : 0 < l.length := Nat.lt_of_le_of_lt (Nat.zero_le i) hi
    have hres : (resolve_step (some l) feed).1 =
        l.map (fun t => { title := some t, url := some "" }) := by simp [resolve_step, hl]
    rw [hres]
    have hi2 : i < (l.map (fun t => ({ title := some t, url := some "" } : Topic))).length := by
      rw [List.length_map]
      exact hi
    rw [script_lines_get_story _ i hi2, List.get_map, he]
    rw [← storyLine_empty_title (i + 1)]
    rfl
  · rw [script_lines_get_story topics j hj, ht]
    rw [← storyLine_empty_title (j + 1)]
    rfl

/-- C9, witness: override `[""]` and the titleless topic dictionary. -/
theorem c9_witness :
    (0 < ([""] : List String).length) ∧
      ((script_lines (resolve_step (some [""]) (fun _ => FetchResult.networkError)).1).get? 1 =
          some ("Story " ++ toString 1 ++ ": .") ∧
        (script_lines [({ title := none, url := none } : Topic)]).get? 1 =
          some ("Story " ++ toString 1 ++ ": .")) :=
  ⟨by decide,
   c9_empty_titles (fun _ => FetchResult.networkError) [""] 0 (by decide) rfl
     [{ title := none, url := none }] 0 (by decide) rfl⟩

end Autopilot
